import Mathlib

/-!
Verification development for the andes equation-service layer and the
multi-case batch orchestrator.

The definitions below are a shallow embedding of the code in
`src/andes/core/service.py` and `src/andes/main.py`.  Python attribute
values that can hold the sentinel `None`, a scalar, or a numpy vector are
embedded as the `PyVal` sum type; numpy float vectors are embedded as
`List Int` (only zero-ness, lengths and element routing matter to the
properties proved here, never float arithmetic).  External collaborators
that are not under `src/` (the Model and Group registry accessors and the
io parsers) are modelled from the specification; each such definition
carries a doc comment starting with `Modelled from the spec:`.
-/

/-- A Python attribute value as used by the service layer: the sentinel
`None`, a scalar (service.py line 15 stores the integer `0`), or a numeric
vector (numpy arrays are embedded as integer lists). -/
inductive PyVal where
  | pynone : PyVal
  | pyint : Int → PyVal
  | pyvec : List Int → PyVal
deriving DecidableEq

/-- The owning model instance, reduced to the only attribute the service
layer reads from it: its row count `n` (service.py line 40). -/
structure Owner where
  n : Nat
deriving DecidableEq

/-- Embedding of `ServiceBase` (service.py lines 6-40): `v`, `name` and
`owner` attributes. -/
structure ServiceBase where
  v : PyVal
  name : Option String
  owner : Option Owner

/-- `ServiceBase.__init__` (service.py lines 7-17): sets `v = 0`,
stores `name`, leaves `owner` unset. -/
def ServiceBase.init (name : Option String) : ServiceBase :=
  { v := PyVal.pyint 0, name := name, owner := Option.none }

/-- `ServiceBase.get_name` (service.py lines 19-28): returns `[self.name]`. -/
def ServiceBase.get_name (s : ServiceBase) : List (Option String) :=
  [s.name]

/-- `ServiceBase.n` property (service.py lines 30-40):
`self.owner.n if self.owner is not None else 0`. -/
def ServiceBase.n (s : ServiceBase) : Nat :=
  match s.owner with
  | some o => o.n
  | Option.none => 0

/-- Embedding of `Service` (service.py lines 43-79), the constant-derived
variant: adds the `v_str` expression and the `v_numeric` callback.  The
callback is embedded as a per-row numeric function. -/
structure Service extends ServiceBase where
  v_str : Option String
  v_numeric : Option (Nat → Int)

/-- `Service.__init__` (service.py lines 72-79): forwards `name` to the
base constructor, stores `v_str` and `v_numeric`, then overwrites `v`
with `None`. -/
def Service.init (v_str : Option String) (v_numeric : Option (Nat → Int))
    (name : Option String) : Service :=
  { toServiceBase := { ServiceBase.init name with v := PyVal.pynone },
    v_str := v_str, v_numeric := v_numeric }

/-- The index-parameter instance held by `ExtService.indexer`: its resolved
values `v` are the external identifiers selecting rows on the target. -/
structure Indexer where
  v : List String
deriving DecidableEq

/-- A single external model, reduced to what `ExtService.link_external`
reads from it: the external identifier of each internal row (consumed by
`idx2uid`), and the per-attribute value vectors (the `__dict__[src].v`
read on service.py line 113). -/
structure SingleModel where
  rows : List String
  attrs : String → Option (List Int)

/-- A group, reduced to its uniform accessor `get_by_idx(src, indexer, attr)`
used on service.py line 109.  Modelled from the spec: the group gather
returns a vector in the order of the index selector (spec section 6); the
group code itself is not under `src/`. -/
structure GroupModel where
  get_by_idx : String → Option Indexer → String → List Int

/-- The `ext_model` argument of `link_external`: either a group (detected
by `isinstance(ext_model, GroupBase)` on service.py line 108) or a single
model. -/
inductive ExtEntity where
  | group : GroupModel → ExtEntity
  | model : SingleModel → ExtEntity

/-- The errors that can escape `link_external`: `unknownIndex` is the
`UnknownIndexError` raised by `idx2uid` for an identifier with no matching
row (spec section 6); `keyError` is the Python `KeyError` from
`__dict__[self.src]` when the attribute does not exist; `indexError` is the
numpy index error for an out-of-range row read; `attributeError` is the
error from reading `self.indexer.v` when no indexer was supplied. -/
inductive LinkError where
  | unknownIndex : LinkError
  | keyError : LinkError
  | indexError : LinkError
  | attributeError : LinkError
deriving DecidableEq

/-- Position of the row carrying the external identifier `idx` on the
model, if any. -/
def rowIndex (m : SingleModel) (idx : String) : Option Nat :=
  m.rows.findIdx? (fun r => r == idx)

/-- Modelled from the spec: the model-level `idx2uid` accessor (spec
section 6) maps each external identifier to its internal row position and
fails with `UnknownIndexError` for an identifier that has no matching row.
The Model class implementing it is not under `src/`. -/
def idx2uid (m : SingleModel) : List String → Except LinkError (List Nat)
  | [] => Except.ok []
  | i :: rest =>
    match rowIndex m i with
    | Option.none => Except.error LinkError.unknownIndex
    | some u =>
      match idx2uid m rest with
      | Except.error e => Except.error e
      | Except.ok us => Except.ok (u :: us)

/-- Embedding of `ExtService` (service.py lines 82-113): adds `src`,
`model`, `group` and `indexer`. -/
structure ExtService extends ServiceBase where
  src : String
  model : Option String
  group : Option String
  indexer : Option Indexer

/-- `ExtService.__init__` (service.py lines 91-101): calls
`super().__init__()` WITHOUT forwarding the `name` argument (line 97), so
the base keeps `name = None`; stores `src`, `model`, `group`, `indexer`. -/
def ExtService.init (src : String) (name : Option String)
    (model : Option String) (group : Option String)
    (indexer : Option Indexer) : ExtService :=
  { toServiceBase := ServiceBase.init Option.none,
    src := src, model := model, group := group, indexer := indexer }

/-- `ExtService.link_external` (service.py lines 103-113).  The first
statement `self.v = np.zeros(self.n)` installs the zero vector before any
fallible step, so every exit that does not overwrite `v` — the `n == 0`
early return and each raising path — leaves `v` equal to that zero vector;
the returned `Option LinkError` is the exception channel.  The group branch
is the `get_by_idx` call of line 109; the model branch is the
`idx2uid` mapping and the `__dict__[self.src].v[uid]` gather of
lines 111-113, with the numpy out-of-range read made explicit. -/
def ExtService.link_external (s : ExtService) (ext : ExtEntity) :
    ExtService × Option LinkError :=
  if ServiceBase.n s.toServiceBase = 0 then
    ({ s with v := PyVal.pyvec (List.replicate (ServiceBase.n s.toServiceBase) 0) },
      Option.none)
  else
    match ext with
    | ExtEntity.group g =>
      ({ s with v := PyVal.pyvec (g.get_by_idx s.src s.indexer "v") }, Option.none)
    | ExtEntity.model m =>
      match s.indexer with
      | Option.none =>
        ({ s with v := PyVal.pyvec (List.replicate (ServiceBase.n s.toServiceBase) 0) },
          some LinkError.attributeError)
      | some ix =>
        match idx2uid m ix.v with
        | Except.error e =>
          ({ s with v := PyVal.pyvec (List.replicate (ServiceBase.n s.toServiceBase) 0) },
            some e)
        | Except.ok uid =>
          match m.attrs s.src with
          | Option.none =>
            ({ s with v := PyVal.pyvec (List.replicate (ServiceBase.n s.toServiceBase) 0) },
              some LinkError.keyError)
          | some av =>
            if uid.all (fun u => decide (u < av.length)) then
              ({ s with v := PyVal.pyvec (uid.map (fun u => av.getD u 0)) },
                Option.none)
            else
              ({ s with v := PyVal.pyvec (List.replicate (ServiceBase.n s.toServiceBase) 0) },
                some LinkError.indexError)

/-- The process-global generator behind `np.random.rand`, embedded as a
fixed value stream indexed by a draw counter; only the identity of the
generator being consulted matters to the properties proved here, not the
distribution. -/
def npRandomStream : Nat → Int := fun i => Int.ofNat i

/-- `np.random.rand(n)` against the global stream: draws `n` successive
values and advances the draw counter. -/
def npRandomRand (n : Nat) (state : Nat) : List Int × Nat :=
  ((List.range n).map (fun i => npRandomStream (state + i)), state + n)

/-- Embedding of `ServiceRandom` (service.py lines 116-142): stores the
`func` callable (embedded with the same shape as `npRandomRand`); the
stored `v` slot is the one the constructor deletes (`delattr` on line 130),
reads go through the property `v_read` below and never consult it. -/
structure ServiceRandom extends Service where
  func : Nat → Nat → List Int × Nat

/-- `ServiceRandom.__init__` (service.py lines 127-130): calls
`super().__init__(name)` which is `Service.__init__` with `name` passed
POSITIONALLY, so it lands in the `v_str` parameter and the base `name`
stays `None`; then stores `func`. -/
def ServiceRandom.init (name : Option String)
    (func : Nat → Nat → List Int × Nat) : ServiceRandom :=
  { toService := Service.init name Option.none Option.none, func := func }

/-- The `v` property of `ServiceRandom` (service.py lines 132-142): every
read returns `np.random.rand(self.n)` — a fresh draw of `self.n` values
from the GLOBAL generator; the stored `self.func` is not consulted. -/
def ServiceRandom.v_read (s : ServiceRandom) (state : Nat) : List Int × Nat :=
  npRandomRand (ServiceBase.n s.toServiceBase) state

/-- The error channel of constant-derived resolution: the expression
evaluator can fail on a malformed or unresolvable expression. -/
inductive ResolveError where
  | evalError : ResolveError
deriving DecidableEq

/-- Modelled from the spec: `resolve()` for the constant-derived variant
(spec section 4.1) — the resolving code lives in the Model setup layer,
which is not under `src/`.  It evaluates `v_numeric` if present, else the
`v_str` expression against the owner namespace (the evaluator is
abstracted as `evalExpr`, one value per owned row, `Option.none` marking an
evaluation failure), producing a numeric vector of length `count()`; with
neither driver present the zero vector is produced.  Per the spec,
`count() == 0` yields an empty vector, never an error. -/
def Service.resolve (s : Service) (evalExpr : String → Nat → Option Int) :
    Service × Option ResolveError :=
  if ServiceBase.n s.toServiceBase = 0 then
    ({ s with v := PyVal.pyvec [] }, Option.none)
  else
    match s.v_numeric with
    | some f =>
      ({ s with v := PyVal.pyvec ((List.range (ServiceBase.n s.toServiceBase)).map f) },
        Option.none)
    | Option.none =>
      match s.v_str with
      | some e =>
        match (List.range (ServiceBase.n s.toServiceBase)).mapM (evalExpr e) with
        | some vals => ({ s with v := PyVal.pyvec vals }, Option.none)
        | Option.none => (s, some ResolveError.evalError)
      | Option.none =>
        ({ s with v := PyVal.pyvec (List.replicate (ServiceBase.n s.toServiceBase) 0) },
          Option.none)

/-- The routine selector of the CLI (`-r {tds, eig}`, main.py line 116). -/
inductive Routine where
  | tds : Routine
  | eig : Routine
deriving DecidableEq

/-- The inputs consumed by one execution of `run` (main.py lines 321-379).
`guessOk` and `parseOk` are the success indicators returned by the external
`andes.io.guess` and `andes.io.parse` calls (modelled from the spec: the
parsers are not under `src/`; they populate the registry and return a
falsy indicator on an undetermined format or a failed parse rather than
raising). -/
structure RunOptions where
  guessOk : Bool
  parseOk : Bool
  dump : Bool
  exitEarly : Bool
  routine : Option Routine
deriving DecidableEq

/-- Which phases of `run` executed, whether a system object was returned
(`run` returns `None` from its two early-abort branches), and whether an
exception escaped (`run` signals parse failures by `return`, never by
raising). -/
structure RunTrace where
  guessChecked : Bool
  parseChecked : Bool
  setupRan : Bool
  dumped : Bool
  nrRan : Bool
  tdsRan : Bool
  eigRan : Bool
  returnedSystem : Bool
  raised : Bool
deriving DecidableEq

/-- Embedding of the control flow of `run` (main.py lines 321-379):
`if not andes.io.guess(system): return` (line 339),
`if not andes.io.parse(system): return` (line 342), `system.setup()`
(line 345), the optional dump (lines 347-348), the `exit` early return
(lines 350-351), `system.PFlow.nr()` (line 353) and the routine dispatch
(lines 355-359). -/
def runCase (o : RunOptions) : RunTrace :=
  if o.guessOk = false then
    { guessChecked := true, parseChecked := false, setupRan := false,
      dumped := false, nrRan := false, tdsRan := false, eigRan := false,
      returnedSystem := false, raised := false }
  else if o.parseOk = false then
    { guessChecked := true, parseChecked := true, setupRan := false,
      dumped := false, nrRan := false, tdsRan := false, eigRan := false,
      returnedSystem := false, raised := false }
  else if o.exitEarly then
    { guessChecked := true, parseChecked := true, setupRan := true,
      dumped := o.dump, nrRan := false, tdsRan := false, eigRan := false,
      returnedSystem := true, raised := false }
  else
    { guessChecked := true, parseChecked := true, setupRan := true,
      dumped := o.dump, nrRan := true,
      tdsRan := (match o.routine with | some Routine.tds => true | _ => false),
      eigRan := (match o.routine with | some Routine.eig => true | _ => false),
      returnedSystem := true, raised := false }

/-- Instantaneous state of the batch scheduler loop of `main`
(main.py lines 463-481): `pending` is the size of the `jobs` list of
launched-but-unjoined processes, `barriers` counts the join barriers taken
so far, and `maxPending` records the largest pending count reached at any
point. -/
structure BatchState where
  pending : Nat
  barriers : Nat
  maxPending : Nat
deriving DecidableEq

/-- One iteration of the launch loop (main.py lines 464-481) at position
`idx` of the `k` valid cases: the process is started and appended to
`jobs`; then, when `idx % ncpu == ncpu - 1` or `idx == k - 1`
(line 477), all pending jobs are joined and the list is cleared. -/
def batchStep (k ncpu : Nat) (st : BatchState) (idx : Nat) : BatchState :=
  if idx % ncpu = ncpu - 1 ∨ idx = k - 1 then
    { pending := 0, barriers := st.barriers + 1,
      maxPending := max st.maxPending (st.pending + 1) }
  else
    { pending := st.pending + 1, barriers := st.barriers,
      maxPending := max st.maxPending (st.pending + 1) }

/-- The whole launch loop over `enumerate(valid_cases)` with `k` cases. -/
def batchSchedule (k ncpu : Nat) : BatchState :=
  (List.range k).foldl (batchStep k ncpu) { pending := 0, barriers := 0, maxPending := 0 }

/-- The resolved case list (main.py lines 432-441): each command-line
pattern contributes its glob expansion, in command-line order; a pattern
with no match contributes nothing (only an error is logged).  The glob
expansion (including the path join and `abspath`) is the external `glob`
argument. -/
def resolvedCases (glob : String → List String) (filename : List String) :
    List String :=
  filename.flatMap glob

/-- The launch list (main.py lines 444-448): `cases = list(set(cases))`
removes duplicates but iterates the set in an order the Python semantics
leave unspecified — `setOrder` is that iteration order, constrained only
to produce the distinct elements — after which non-files are dropped. -/
def validCases (setOrder : List String → List String)
    (isfile : String → Bool) (glob : String → List String)
    (filename : List String) : List String :=
  (setOrder (resolvedCases glob filename)).filter isfile

/-- The property the Python `list(set(x))` construction does guarantee:
the result enumerates exactly the distinct elements of `x`, once each —
it is a permutation of the de-duplicated list — with no order promise. -/
def pySetLike (setOrder : List String → List String) : Prop :=
  ∀ xs : List String, (setOrder xs).Perm xs.dedup

/-- Observable outcome of `main` (main.py lines 382-491) on its case
processing and batch branch: which cases were launched and with which run
traces, the schedule statistics of the launch loop, and the console
stream-handler level before (`config_logger` on lines 392-394 sets it to
the `verbose` argument), during, and after the batch. -/
structure MainResult where
  launched : List String
  results : List RunTrace
  sched : BatchState
  levelBefore : Nat
  levelDuring : Nat
  levelFinal : Nat
  multi : Bool

/-- Embedding of the case-processing tail of `main` (main.py
lines 421-491).  With at most one valid case no handler mutation happens
and at most one `run` executes (lines 452-455); with two or more, the
handler is set to `WARNING` = 30 (line 460), one process per case is
launched by the loop embedded in `batchSchedule` (lines 463-481), and the
handler is then set to `INFO` = 20 (line 484).  `caseOptions` gives the
per-case run inputs; each process runs `run` on its own case only. -/
def mainRun (setOrder : List String → List String) (isfile : String → Bool)
    (glob : String → List String) (filename : List String)
    (verbose ncpu : Nat) (caseOptions : String → RunOptions) : MainResult :=
  if (validCases setOrder isfile glob filename).length ≤ 1 then
    { launched := validCases setOrder isfile glob filename,
      results := (validCases setOrder isfile glob filename).map
        (fun c => runCase (caseOptions c)),
      sched := { pending := 0, barriers := 0, maxPending := 0 },
      levelBefore := verbose, levelDuring := verbose, levelFinal := verbose,
      multi := false }
  else
    { launched := validCases setOrder isfile glob filename,
      results := (validCases setOrder isfile glob filename).map
        (fun c => runCase (caseOptions c)),
      sched := batchSchedule (validCases setOrder isfile glob filename).length ncpu,
      levelBefore := verbose, levelDuring := 30, levelFinal := 20,
      multi := true }

/-- Updating `v` does not change the owner-derived count. -/
lemma n_set_v (s : ExtService) (pv : PyVal) :
    ServiceBase.n { s.toServiceBase with v := pv } = ServiceBase.n s.toServiceBase := rfl

/-- `idx2uid` fails with `UnknownIndexError` whenever some identifier in
the list has no matching row. -/
lemma idx2uid_error_of_missing (m : SingleModel) (l : List String)
    (h : ∃ i ∈ l, rowIndex m i = Option.none) :
    idx2uid m l = Except.error LinkError.unknownIndex := by
  induction l with
  | nil =>
    rcases h with ⟨i, hi, _⟩
    cases hi
  | cons x rest ih =>
    rcases h with ⟨i, hi, hnone⟩
    rcases List.mem_cons.mp hi with rfl | hmem
    · simp [idx2uid, hnone]
    · cases hrx : rowIndex m x with
      | none => simp [idx2uid, hrx]
      | some u => simp [idx2uid, hrx, ih ⟨i, hmem, hnone⟩]

/-- A successful `idx2uid` returns one row position per identifier. -/
lemma idx2uid_ok_length (m : SingleModel) :
    ∀ l uid, idx2uid m l = Except.ok uid → uid.length = l.length := by
  intro l
  induction l with
  | nil =>
    intro uid h
    simp [idx2uid] at h
    simp [h.symm]
  | cons x rest ih =>
    intro uid h
    cases hrx : rowIndex m x with
    | none => simp [idx2uid, hrx] at h
    | some u =>
      cases hr : idx2uid m rest with
      | error e => simp [idx2uid, hrx, hr] at h
      | ok us =>
        simp [idx2uid, hrx, hr] at h
        simp [h.symm, ih us hr]

/-- `link_external` with an empty (or unowned) service: the zero vector of
length 0 is installed and the call returns at once with no error. -/
lemma link_external_zero (s : ExtService) (ext : ExtEntity)
    (h : ServiceBase.n s.toServiceBase = 0) :
    ExtService.link_external s ext = ({ s with v := PyVal.pyvec [] }, Option.none) := by
  simp [ExtService.link_external, h]

/-- `link_external` with a group target: the uniform accessor is consulted
with the source attribute, the indexer, and the field name `v`. -/
lemma link_external_group (s : ExtService) (g : GroupModel)
    (h : ServiceBase.n s.toServiceBase ≠ 0) :
    ExtService.link_external s (ExtEntity.group g) =
      ({ s with v := PyVal.pyvec (g.get_by_idx s.src s.indexer "v") }, Option.none) := by
  simp [ExtService.link_external, h]

/-- `link_external` with a single-model target: on the successful path the
identifiers are mapped through `idx2uid` and the source attribute vector is
read at those row positions. -/
lemma link_external_model_ok (s : ExtService) (m : SingleModel)
    (ix : Indexer) (uid : List Nat) (av : List Int)
    (h : ServiceBase.n s.toServiceBase ≠ 0)
    (h1 : s.indexer = some ix)
    (h2 : idx2uid m ix.v = Except.ok uid)
    (h3 : m.attrs s.src = some av)
    (h4 : uid.all (fun u => decide (u < av.length)) = true) :
    ExtService.link_external s (ExtEntity.model m) =
      ({ s with v := PyVal.pyvec (uid.map (fun u => av.getD u 0)) }, Option.none) := by
  simp [ExtService.link_external, h, h1, h2, h3, h4]

/-- `link_external` with a single-model target whose indexer holds an
identifier with no matching row: the `UnknownIndexError` from `idx2uid`
propagates, and `v` keeps the zero vector installed on entry. -/
lemma link_external_missing (s : ExtService) (m : SingleModel) (ix : Indexer)
    (h : ServiceBase.n s.toServiceBase ≠ 0)
    (h1 : s.indexer = some ix)
    (h2 : ∃ i ∈ ix.v, rowIndex m i = Option.none) :
    ExtService.link_external s (ExtEntity.model m) =
      ({ s with v := PyVal.pyvec (List.replicate (ServiceBase.n s.toServiceBase) 0) },
        some LinkError.unknownIndex) := by
  simp [ExtService.link_external, h, h1, idx2uid_error_of_missing m ix.v h2]

/-- On every failing path of the single-model branch, `v` is left holding
the zero vector of length `count()` installed by the first statement. -/
lemma link_external_model_err (s : ExtService) (m : SingleModel) (e : LinkError)
    (he : (ExtService.link_external s (ExtEntity.model m)).2 = some e) :
    (ExtService.link_external s (ExtEntity.model m)).1.v =
      PyVal.pyvec (List.replicate (ServiceBase.n s.toServiceBase) 0) := by
  by_cases h0 : ServiceBase.n s.toServiceBase = 0
  · simp [ExtService.link_external, h0] at he
  · cases hix : s.indexer with
    | none => simp [ExtService.link_external, h0, hix]
    | some ix =>
      cases hiu : idx2uid m ix.v with
      | error e2 => simp [ExtService.link_external, h0, hix, hiu]
      | ok uid =>
        cases hat : m.attrs s.src with
        | none => simp [ExtService.link_external, h0, hix, hiu, hat]
        | some av =>
          by_cases hall : uid.all (fun u => decide (u < av.length)) = true
          · simp [ExtService.link_external, h0, hix, hiu, hat, hall] at he
          · simp [ExtService.link_external, h0, hix, hiu, hat, hall]

/-- Invariant of the launch loop strictly before the last case: after `m`
launches (`m < k`), the pending set holds `m % ncpu` jobs, `m / ncpu`
barriers have been taken, and the pending count never exceeded
`min m ncpu`. -/
lemma batchSchedule_prefix (k ncpu : Nat) (hn : 0 < ncpu) :
    ∀ m, m < k →
      (List.range m).foldl (batchStep k ncpu)
        { pending := 0, barriers := 0, maxPending := 0 } =
      { pending := m % ncpu, barriers := m / ncpu, maxPending := min m ncpu } := by
  intro m
  induction m with
  | zero =>
    intro _
    simp
  | succ m ih =>
    intro hm
    have hmk : m < k := Nat.lt_of_succ_lt hm
    have hne : ¬ (m = k - 1) := by omega
    rw [List.range_succ, List.foldl_append, ih hmk, List.foldl_cons, List.foldl_nil]
    have hmod : m % ncpu < ncpu := Nat.mod_lt m hn
    have hmle : m % ncpu ≤ m := Nat.mod_le m ncpu
    have hdm : ncpu * (m / ncpu) + m % ncpu = m := Nat.div_add_mod m ncpu
    by_cases h1 : m % ncpu = ncpu - 1
    · unfold batchStep
      rw [if_pos (Or.inl h1)]
      have h2 : m + 1 = ncpu * (m / ncpu + 1) := by
        have h3 : ncpu * (m / ncpu + 1) = ncpu * (m / ncpu) + ncpu := by ring
        omega
      simp only [BatchState.mk.injEq]
      refine ⟨?_, ?_, ?_⟩
      · rw [h2, Nat.mul_mod_right]
      · rw [h2, Nat.mul_div_cancel_left _ hn]
      · omega
    · unfold batchStep
      rw [if_neg (not_or.mpr ⟨h1, hne⟩)]
      have h2 : m + 1 = ncpu * (m / ncpu) + (m % ncpu + 1) := by omega
      simp only [BatchState.mk.injEq]
      refine ⟨?_, ?_, ?_⟩
      · rw [h2, Nat.mul_add_mod,
          Nat.mod_eq_of_lt (show m % ncpu + 1 < ncpu by omega)]
      · rw [h2, Nat.mul_add_div hn,
          Nat.div_eq_of_lt (show m % ncpu + 1 < ncpu by omega), Nat.add_zero]
      · rcases Nat.lt_or_ge m ncpu with h5 | h5
        · have h6 : m % ncpu = m := Nat.mod_eq_of_lt h5
          omega
        · omega

/-- The schedule of `k ≥ 1` cases on `ncpu ≥ 1` workers: the loop ends
with an empty pending set, exactly `ceil(k / ncpu)` join barriers were
taken, and the pending set never held more than `ncpu` jobs. -/
lemma batchSchedule_spec (k ncpu : Nat) (hn : 0 < ncpu) (hk : 1 ≤ k) :
    (batchSchedule k ncpu).barriers = (k + ncpu - 1) / ncpu ∧
    (batchSchedule k ncpu).maxPending ≤ ncpu ∧
    (batchSchedule k ncpu).pending = 0 := by
  obtain ⟨j, rfl⟩ : ∃ j, k = j + 1 := ⟨k - 1, by omega⟩
  unfold batchSchedule
  rw [List.range_succ, List.foldl_append,
    batchSchedule_prefix (j + 1) ncpu hn j (Nat.lt_succ_self j),
    List.foldl_cons, List.foldl_nil]
  unfold batchStep
  rw [if_pos (Or.inr (by omega))]
  have hmod : j % ncpu < ncpu := Nat.mod_lt j hn
  refine ⟨?_, ?_, rfl⟩
  · show j / ncpu + 1 = (j + 1 + ncpu - 1) / ncpu
    have h1 : j + 1 + ncpu - 1 = j + ncpu := by omega
    rw [h1, Nat.add_div_right j hn]
  · show max (min j ncpu) (j % ncpu + 1) ≤ ncpu
    omega

/-- The launch list of `main` is the valid-case list in both branches. -/
lemma mainRun_launched (setOrder : List String → List String)
    (isfile : String → Bool) (glob : String → List String)
    (filename : List String) (verbose ncpu : Nat)
    (caseOptions : String → RunOptions) :
    (mainRun setOrder isfile glob filename verbose ncpu caseOptions).launched =
      validCases setOrder isfile glob filename := by
  unfold mainRun
  split <;> rfl

/-- With two or more valid cases, `main` takes the batch branch. -/
lemma mainRun_multi (setOrder : List String → List String)
    (isfile : String → Bool) (glob : String → List String)
    (filename : List String) (verbose ncpu : Nat)
    (caseOptions : String → RunOptions)
    (h : 2 ≤ (validCases setOrder isfile glob filename).length) :
    mainRun setOrder isfile glob filename verbose ncpu caseOptions =
      { launched := validCases setOrder isfile glob filename,
        results := (validCases setOrder isfile glob filename).map
          (fun c => runCase (caseOptions c)),
        sched := batchSchedule (validCases setOrder isfile glob filename).length ncpu,
        levelBefore := verbose, levelDuring := 30, levelFinal := 20,
        multi := true } := by
  unfold mainRun
  rw [if_neg (by omega)]

/-- Owner wiring performed by the registry when a model adopts a service
variable (the registry code is not under `src/`). -/
def ExtService.setOwner (s : ExtService) (o : Owner) : ExtService :=
  { s with toServiceBase := { s.toServiceBase with owner := some o } }

/-- Owner wiring for a stochastic service variable. -/
def ServiceRandom.setOwner (s : ServiceRandom) (o : Owner) : ServiceRandom :=
  { s with toService := { s.toService with
      toServiceBase := { s.toService.toServiceBase with owner := some o } } }

/-- A set-iteration order used as a concrete admissible instance of the
unspecified Python set order: distinct elements, reversed. -/
def setOrderRev : List String → List String := fun xs => xs.dedup.reverse

/-- A filesystem on which every path is a regular file. -/
def allFiles : String → Bool := fun _ => true

/-- A glob oracle resolving the single pattern to two case files. -/
def glob2 : String → List String := fun p => if p = "*" then ["a", "b"] else []

/-- A glob oracle resolving the single pattern to three case files. -/
def glob3 : String → List String := fun p => if p = "*" then ["a", "b", "c"] else []

/-- Per-case run inputs for a healthy case: both io indicators succeed. -/
def defaultOpts : String → RunOptions := fun _ =>
  { guessOk := true, parseOk := true, dump := false, exitEarly := false,
    routine := Option.none }

/-- Run inputs whose format detection fails. -/
def failOpts : RunOptions :=
  { guessOk := false, parseOk := true, dump := false, exitEarly := false,
    routine := Option.none }

/-- Index selector naming the absent identifier `x`. -/
def ceIndexer : Indexer := { v := ["x"] }

/-- An external service owned by a one-row model, selecting row `x` of a
single-model target. -/
def ceService : ExtService :=
  ExtService.setOwner
    (ExtService.init "p" (some "q") (some "M") Option.none (some ceIndexer))
    { n := 1 }

/-- A target model with no rows at all: every selector misses. -/
def ceModel : SingleModel := { rows := [], attrs := fun _ => Option.none }

/-- Index selector naming the present identifier `r1`. -/
def okIndexer : Indexer := { v := ["r1"] }

/-- An external service owned by a one-row model, selecting row `r1`. -/
def okService : ExtService :=
  ExtService.setOwner
    (ExtService.init "p" Option.none (some "M") Option.none (some okIndexer))
    { n := 1 }

/-- A target model holding one row `r1` whose attributes all carry the
value vector `[5]`. -/
def okModel : SingleModel := { rows := ["r1"], attrs := fun _ => some [5] }

/-- A group target whose uniform accessor always gathers `[7]`. -/
def ceGroup : GroupModel := { get_by_idx := fun _ _ _ => [7] }

/-- An external service owned by a one-row model, targeting a group. -/
def grpService : ExtService :=
  ExtService.setOwner
    (ExtService.init "q" Option.none Option.none (some "G") Option.none)
    { n := 1 }

/-- An unowned external service (owner never wired). -/
def unownedExt : ExtService :=
  ExtService.init "p" Option.none Option.none Option.none Option.none

/-- An unowned constant-derived service. -/
def unownedSv : Service := Service.init (some "0.0") Option.none (some "c")

/-- A trivial expression evaluator. -/
def zeroEval : String → Nat → Option Int := fun _ _ => some 0

/-- A stochastic service owned by a one-row model whose stored `func`
generates the constant vector of sevens. -/
def ceRandom : ServiceRandom :=
  ServiceRandom.setOwner
    (ServiceRandom.init (some "u") (fun n st => (List.replicate n 7, st)))
    { n := 1 }

/-- Claim C1: in a multi-case batch run with `k` valid case files and a
configured worker count `ncpu`, the launch loop joins all pending units
after every `ncpu`-th launch and after the final launch, so the number of
join barriers equals `ceil(k / ncpu)` (written `(k + ncpu - 1) / ncpu`),
at no instant more than `ncpu` launched-but-unjoined units are pending,
and the loop ends with an empty pending set. -/
theorem c1_batch_join_barriers (setOrder : List String → List String)
    (isfile : String → Bool) (glob : String → List String)
    (filename : List String) (verbose ncpu : Nat)
    (caseOptions : String → RunOptions) (hn : 0 < ncpu)
    (hk : 2 ≤ (mainRun setOrder isfile glob filename verbose ncpu caseOptions).launched.length) :
    (mainRun setOrder isfile glob filename verbose ncpu caseOptions).sched.barriers =
      ((mainRun setOrder isfile glob filename verbose ncpu caseOptions).launched.length
        + ncpu - 1) / ncpu
  ∧ (mainRun setOrder isfile glob filename verbose ncpu caseOptions).sched.maxPending ≤ ncpu
  ∧ (mainRun setOrder isfile glob filename verbose ncpu caseOptions).sched.pending = 0 := by
  rw [mainRun_launched] at hk
  rw [mainRun_multi setOrder isfile glob filename verbose ncpu caseOptions hk]
  dsimp only
  exact batchSchedule_spec _ ncpu hn (by omega)

/-- Witness for C1: three valid cases on two workers take two barriers. -/
theorem c1_batch_join_barriers_witness :
    (mainRun setOrderRev allFiles glob3 ["*"] 20 2 defaultOpts).sched.barriers =
      ((mainRun setOrderRev allFiles glob3 ["*"] 20 2 defaultOpts).launched.length
        + 2 - 1) / 2
  ∧ (mainRun setOrderRev allFiles glob3 ["*"] 20 2 defaultOpts).sched.maxPending ≤ 2
  ∧ (mainRun setOrderRev allFiles glob3 ["*"] 20 2 defaultOpts).sched.pending = 0 :=
  c1_batch_join_barriers setOrderRev allFiles glob3 ["*"] 20 2 defaultOpts
    (by decide) (by decide)

/-- Claim C2, counterexample: with a one-row owner and the selector `x`
absent from the (empty) target model, `link_external` does raise the
link-resolution error, but it does NOT leave `value` unset: `v` holds the
zero vector of length `count()` installed by the first statement of
`link_external`, refuting the claim that `value` is not left as a zero
vector. -/
theorem c2_counterexample :
    (ExtService.link_external ceService (ExtEntity.model ceModel)).2 =
      some LinkError.unknownIndex
  ∧ (ExtService.link_external ceService (ExtEntity.model ceModel)).1.v =
      PyVal.pyvec (List.replicate (ServiceBase.n ceService.toServiceBase) 0)
  ∧ PyVal.pyvec (List.replicate (ServiceBase.n ceService.toServiceBase) 0) =
      PyVal.pyvec [0] := by
  refine ⟨rfl, rfl, rfl⟩

/-- Claim C2, amended: for every external service with `count() > 0` whose
index selector holds an identifier with no matching row on the
single-model target, `link()` fails with the link-resolution error
(`UnknownIndexError` from `idx2uid`), and `value` is left holding the zero
vector of length `count()` that `link()` installed before resolving. -/
theorem c2_unknown_index_link_fails (s : ExtService) (m : SingleModel)
    (ix : Indexer) (h : ServiceBase.n s.toServiceBase ≠ 0)
    (h1 : s.indexer = some ix)
    (h2 : ∃ i ∈ ix.v, rowIndex m i = Option.none) :
    (ExtService.link_external s (ExtEntity.model m)).2 = some LinkError.unknownIndex
  ∧ (ExtService.link_external s (ExtEntity.model m)).1.v =
      PyVal.pyvec (List.replicate (ServiceBase.n s.toServiceBase) 0) := by
  rw [link_external_missing s m ix h h1 h2]
  exact ⟨rfl, rfl⟩

/-- Witness for the amended C2. -/
theorem c2_unknown_index_link_fails_witness :
    (ExtService.link_external ceService (ExtEntity.model ceModel)).2 =
      some LinkError.unknownIndex
  ∧ (ExtService.link_external ceService (ExtEntity.model ceModel)).1.v =
      PyVal.pyvec (List.replicate (ServiceBase.n ceService.toServiceBase) 0) :=
  c2_unknown_index_link_fails ceService ceModel ceIndexer (by decide) rfl
    ⟨"x", by decide, rfl⟩

/-- Claim C3, evaluated at the failing input: a stochastic service whose
stored `func` generates the constant vector `[7]` — a read of `v` draws
from the global `np.random.rand` stream instead (here `[0]`), so the
callable supplied at construction is NOT the one invoked by reads. -/
theorem c3_read_ignores_func :
    ServiceRandom.v_read ceRandom 0 = ([0], 1)
  ∧ ceRandom.func (ServiceBase.n ceRandom.toServiceBase) 0 = ([7], 0)
  ∧ (([0] : List Int) ≠ [7]) := by
  refine ⟨rfl, rfl, by decide⟩

/-- Claim C4: every auxiliary variable whose owner is unset has
`count() = 0` without raising, and both `resolve()` and `link()` produce
an empty vector without raising any error. -/
theorem c4_unowned_fail_soft (sb : ServiceBase) (es : ExtService) (sv : Service)
    (evalExpr : String → Nat → Option Int) (ext : ExtEntity)
    (hsb : sb.owner = Option.none) (hes : es.toServiceBase.owner = Option.none)
    (hsv : sv.toServiceBase.owner = Option.none) :
    ServiceBase.n sb = 0
  ∧ ServiceBase.n es.toServiceBase = 0
  ∧ ExtService.link_external es ext = ({ es with v := PyVal.pyvec [] }, Option.none)
  ∧ (Service.resolve sv evalExpr).1.v = PyVal.pyvec []
  ∧ (Service.resolve sv evalExpr).2 = Option.none := by
  have h1 : ServiceBase.n sb = 0 := by simp [ServiceBase.n, hsb]
  have h2 : ServiceBase.n es.toServiceBase = 0 := by simp [ServiceBase.n, hes]
  have h3 : ServiceBase.n sv.toServiceBase = 0 := by simp [ServiceBase.n, hsv]
  refine ⟨h1, h2, link_external_zero es ext h2, ?_, ?_⟩
  · simp [Service.resolve, h3]
  · simp [Service.resolve, h3]

/-- Witness for C4. -/
theorem c4_unowned_fail_soft_witness :
    ServiceBase.n (ServiceBase.init Option.none) = 0
  ∧ ServiceBase.n unownedExt.toServiceBase = 0
  ∧ ExtService.link_external unownedExt (ExtEntity.model ceModel) =
      ({ unownedExt with v := PyVal.pyvec [] }, Option.none)
  ∧ (Service.resolve unownedSv zeroEval).1.v = PyVal.pyvec []
  ∧ (Service.resolve unownedSv zeroEval).2 = Option.none :=
  c4_unowned_fail_soft (ServiceBase.init Option.none) unownedExt unownedSv
    zeroEval (ExtEntity.model ceModel) rfl rfl rfl

/-- Claim C5: `link(target)` first installs the zero vector of length
`count()`; if `count() = 0` it returns at once with no further work and no
error; otherwise a group target is read through the uniform `get_by_idx`
accessor with field `v`, and a single-model target is read by mapping the
index selector through `idx2uid` and gathering the named attribute value
vector at those row positions; every failing exit still leaves the initial
zero vector in place. -/
theorem c5_link_dispatch (s : ExtService) :
    (ServiceBase.n s.toServiceBase = 0 → ∀ ext,
        ExtService.link_external s ext = ({ s with v := PyVal.pyvec [] }, Option.none))
  ∧ (ServiceBase.n s.toServiceBase ≠ 0 → ∀ g,
        ExtService.link_external s (ExtEntity.group g) =
          ({ s with v := PyVal.pyvec (g.get_by_idx s.src s.indexer "v") }, Option.none))
  ∧ (ServiceBase.n s.toServiceBase ≠ 0 → ∀ m ix uid av,
        s.indexer = some ix → idx2uid m ix.v = Except.ok uid →
        m.attrs s.src = some av →
        uid.all (fun u => decide (u < av.length)) = true →
        ExtService.link_external s (ExtEntity.model m) =
          ({ s with v := PyVal.pyvec (uid.map (fun u => av.getD u 0)) }, Option.none))
  ∧ (∀ m e, (ExtService.link_external s (ExtEntity.model m)).2 = some e →
        (ExtService.link_external s (ExtEntity.model m)).1.v =
          PyVal.pyvec (List.replicate (ServiceBase.n s.toServiceBase) 0)) :=
  ⟨fun h ext => link_external_zero s ext h,
   fun h g => link_external_group s g h,
   fun h m ix uid av h1 h2 h3 h4 => link_external_model_ok s m ix uid av h h1 h2 h3 h4,
   fun m e he => link_external_model_err s m e he⟩

/-- Witness for C5: the empty, group and single-model paths at concrete
instances. -/
theorem c5_link_dispatch_witness :
    ExtService.link_external unownedExt (ExtEntity.model ceModel) =
      ({ unownedExt with v := PyVal.pyvec [] }, Option.none)
  ∧ ExtService.link_external grpService (ExtEntity.group ceGroup) =
      ({ grpService with v := PyVal.pyvec [7] }, Option.none)
  ∧ ExtService.link_external okService (ExtEntity.model okModel) =
      ({ okService with v := PyVal.pyvec [5] }, Option.none) :=
  ⟨(c5_link_dispatch unownedExt).1 rfl (ExtEntity.model ceModel),
   (c5_link_dispatch grpService).2.1 (by decide) ceGroup,
   (c5_link_dispatch okService).2.2.1 (by decide) okModel okIndexer [0] [5]
     rfl rfl rfl (by decide)⟩

/-- Claim C6, counterexample: with the admissible set-iteration order that
reverses the distinct resolved paths, the launch list is `[b, a]` while
the resolution order is `[a, b]` — so the launch order does not preserve
the resolution order. -/
theorem c6_counterexample :
    (setOrderRev ["a", "b"]).Perm (["a", "b"].dedup)
  ∧ resolvedCases glob2 ["*"] = ["a", "b"]
  ∧ (mainRun setOrderRev allFiles glob2 ["*"] 20 2 defaultOpts).launched = ["b", "a"]
  ∧ (["b", "a"] : List String) ≠ ["a", "b"] := by
  refine ⟨by decide, rfl, rfl, by decide⟩

/-- Claim C6, amended: in every invocation the launch list contains each
distinct resolved case path exactly once (restricted to existing files) —
it is a permutation of the de-duplicated resolved list — but its order is
the unspecified set-iteration order, not necessarily resolution order. -/
theorem c6_launch_list_permutation (setOrder : List String → List String)
    (isfile : String → Bool) (glob : String → List String)
    (filename : List String) (verbose ncpu : Nat)
    (caseOptions : String → RunOptions) (hs : pySetLike setOrder) :
    ((mainRun setOrder isfile glob filename verbose ncpu caseOptions).launched).Perm
      (((resolvedCases glob filename).dedup).filter isfile) := by
  rw [mainRun_launched]
  exact List.Perm.filter isfile (hs (resolvedCases glob filename))

/-- Witness for the amended C6. -/
theorem c6_launch_list_permutation_witness :
    ((mainRun setOrderRev allFiles glob2 ["*"] 20 2 defaultOpts).launched).Perm
      (((resolvedCases glob2 ["*"]).dedup).filter allFiles) :=
  c6_launch_list_permutation setOrderRev allFiles glob2 ["*"] 20 2 defaultOpts
    (fun xs => List.reverse_perm xs.dedup)

/-- Claim C7, counterexample: with the user-selected verbose level 10, the
handler level before the batch is 10 and during the batch 30, but after
the batch it is set to 20 (INFO), not restored to 10 — refuting the claim
that the pre-batch level is restored. -/
theorem c7_counterexample :
    (mainRun setOrderRev allFiles glob2 ["*"] 10 2 defaultOpts).levelBefore = 10
  ∧ (mainRun setOrderRev allFiles glob2 ["*"] 10 2 defaultOpts).levelDuring = 30
  ∧ (mainRun setOrderRev allFiles glob2 ["*"] 10 2 defaultOpts).levelFinal = 20
  ∧ (20 : Nat) ≠ 10 := by
  refine ⟨rfl, rfl, rfl, by decide⟩

/-- Claim C7, amended: during multi-case batch execution the console
stream-handler level is set to warnings-only (30); after all units
complete it is set to the default INFO level (20) unconditionally, not to
the level selected before the batch. -/
theorem c7_batch_verbosity (setOrder : List String → List String)
    (isfile : String → Bool) (glob : String → List String)
    (filename : List String) (verbose ncpu : Nat)
    (caseOptions : String → RunOptions)
    (h : 2 ≤ (mainRun setOrder isfile glob filename verbose ncpu caseOptions).launched.length) :
    (mainRun setOrder isfile glob filename verbose ncpu caseOptions).levelBefore = verbose
  ∧ (mainRun setOrder isfile glob filename verbose ncpu caseOptions).levelDuring = 30
  ∧ (mainRun setOrder isfile glob filename verbose ncpu caseOptions).levelFinal = 20 := by
  rw [mainRun_launched] at h
  rw [mainRun_multi setOrder isfile glob filename verbose ncpu caseOptions h]
  exact ⟨rfl, rfl, rfl⟩

/-- Witness for the amended C7. -/
theorem c7_batch_verbosity_witness :
    (mainRun setOrderRev allFiles glob2 ["*"] 10 2 defaultOpts).levelBefore = 10
  ∧ (mainRun setOrderRev allFiles glob2 ["*"] 10 2 defaultOpts).levelDuring = 30
  ∧ (mainRun setOrderRev allFiles glob2 ["*"] 10 2 defaultOpts).levelFinal = 20 :=
  c7_batch_verbosity setOrderRev allFiles glob2 ["*"] 10 2 defaultOpts (by decide)

/-- Claim C8: when format detection or parsing fails, the failure is a
returned indicator checked by `run`, which aborts the case before setup or
any solve routine, returns no system object, raises nothing — and the
launch list of the batch is unaffected by any per-case input or outcome. -/
theorem c8_io_failure_soft_abort (o : RunOptions)
    (setOrder : List String → List String) (isfile : String → Bool)
    (glob : String → List String) (filename : List String)
    (verbose ncpu : Nat) (caseOptions caseOptions2 : String → RunOptions)
    (h : o.guessOk = false ∨ o.parseOk = false) :
    (runCase o).setupRan = false
  ∧ (runCase o).nrRan = false
  ∧ (runCase o).tdsRan = false
  ∧ (runCase o).eigRan = false
  ∧ (runCase o).returnedSystem = false
  ∧ (runCase o).raised = false
  ∧ (mainRun setOrder isfile glob filename verbose ncpu caseOptions).launched =
      (mainRun setOrder isfile glob filename verbose ncpu caseOptions2).launched := by
  refine ⟨?_, ?_, ?_, ?_, ?_, ?_, by simp [mainRun_launched]⟩ <;>
  · rcases h with h | h
    · simp [runCase, h]
    · cases hg : o.guessOk <;> simp [runCase, h, hg]

/-- Witness for C8. -/
theorem c8_io_failure_soft_abort_witness :
    (runCase failOpts).setupRan = false
  ∧ (runCase failOpts).nrRan = false
  ∧ (runCase failOpts).tdsRan = false
  ∧ (runCase failOpts).eigRan = false
  ∧ (runCase failOpts).returnedSystem = false
  ∧ (runCase failOpts).raised = false
  ∧ (mainRun setOrderRev allFiles glob2 ["*"] 20 2 defaultOpts).launched =
      (mainRun setOrderRev allFiles glob2 ["*"] 20 2 (fun _ => failOpts)).launched :=
  c8_io_failure_soft_abort failOpts setOrderRev allFiles glob2 ["*"] 20 2
    defaultOpts (fun _ => failOpts) (Or.inl rfl)

/-- Claim C9, evaluated at the failing input: `get_name` does return the
stored name in a one-element list, but the `ExtService` constructor drops
the supplied name (and the `ServiceRandom` constructor misroutes it into
`v_str`), so a variable constructed with name `foo` answers `[None]`, not
`[foo]`, for those variants. -/
theorem c9_get_name_eval :
    (ServiceBase.init (some "foo")).get_name = [some "foo"]
  ∧ (Service.init Option.none Option.none (some "foo")).get_name = [some "foo"]
  ∧ (ExtService.init "p" (some "foo") Option.none Option.none Option.none).get_name
      = [Option.none]
  ∧ (ServiceRandom.init (some "foo")
      (fun n st => (List.replicate n 7, st))).get_name = [Option.none]
  ∧ (ServiceRandom.init (some "foo")
      (fun n st => (List.replicate n 7, st))).v_str = some "foo"
  ∧ ([Option.none] : List (Option String)) ≠ [some "foo"] := by
  refine ⟨rfl, rfl, rfl, rfl, rfl, by decide⟩

/-- Claim C10: between construction and setup-phase resolution, a
constant-derived value reads as the `None` sentinel and an
external-linked value reads as the scalar `0` — neither is a numeric
vector of any length — and the vector-of-length-`count()` shape holds
after a successful `link()`. -/
theorem c10_value_shape_before_setup :
    (∀ vs vn nm, (Service.init vs vn nm).v = PyVal.pynone)
  ∧ (∀ src nm mdl grp ix, (ExtService.init src nm mdl grp ix).v = PyVal.pyint 0)
  ∧ (∀ xs : List Int, PyVal.pynone ≠ PyVal.pyvec xs ∧ PyVal.pyint 0 ≠ PyVal.pyvec xs)
  ∧ (∀ (s : ExtService) (m : SingleModel) (ix : Indexer) uid av,
        s.indexer = some ix → idx2uid m ix.v = Except.ok uid →
        m.attrs s.src = some av →
        uid.all (fun u => decide (u < av.length)) = true →
        ix.v.length = ServiceBase.n s.toServiceBase →
        ∃ xs : List Int,
          (ExtService.link_external s (ExtEntity.model m)).1.v = PyVal.pyvec xs
          ∧ xs.length = ServiceBase.n s.toServiceBase) := by
  refine ⟨fun vs vn nm => rfl, fun src nm mdl grp ix => rfl,
    fun xs => ⟨by simp, by simp⟩, ?_⟩
  intro s m ix uid av h1 h2 h3 h4 h5
  by_cases h0 : ServiceBase.n s.toServiceBase = 0
  · rw [link_external_zero s (ExtEntity.model m) h0]
    exact ⟨[], rfl, by simp [h0]⟩
  · rw [link_external_model_ok s m ix uid av h0 h1 h2 h3 h4]
    refine ⟨uid.map (fun u => av.getD u 0), rfl, ?_⟩
    rw [List.length_map, idx2uid_ok_length m ix.v uid h2, h5]

/-- Witness for C10. -/
theorem c10_value_shape_before_setup_witness :
    (Service.init (some "0.0") Option.none (some "c")).v = PyVal.pynone
  ∧ (ExtService.init "p" (some "e") Option.none Option.none (some okIndexer)).v
      = PyVal.pyint 0
  ∧ (PyVal.pynone ≠ PyVal.pyvec [0] ∧ PyVal.pyint 0 ≠ PyVal.pyvec [0])
  ∧ (∃ xs : List Int,
      (ExtService.link_external okService (ExtEntity.model okModel)).1.v =
        PyVal.pyvec xs
      ∧ xs.length = ServiceBase.n okService.toServiceBase) :=
  ⟨c10_value_shape_before_setup.1 (some "0.0") Option.none (some "c"),
   c10_value_shape_before_setup.2.1 "p" (some "e") Option.none Option.none
     (some okIndexer),
   c10_value_shape_before_setup.2.2.1 [0],
   c10_value_shape_before_setup.2.2.2 okService okModel okIndexer [0] [5]
     rfl rfl rfl (by decide) rfl⟩
